import Mathlib

/-!
Verification of the entity classification, REST-surface synthesis, endpoint
probing and dashboard generation pipeline of `Tools/get_ids.py`.

Entity kind labels are modelled as `List Char`; Python's substring test
`sub in s` is `sub.toList <:+: s.toList` (`List.IsInfix`), which is decidable.
Python's stable `sorted(..., key=k)` is modelled by Mathlib's
`List.insertionSort` over the key's `≤` relation: both are stable sorts by a
total preorder, hence produce the same sequence.
-/

namespace GetIds

/-- An entity record as supplied by the entity source (aioesphomeapi).
`kind` is the raw class name of the entity object (e.g. `"SwitchInfo"`);
the script derives the type label via `type(entity).__name__.replace('Info','')`. -/
structure Entity where
  key : Nat
  kind : String
  name : String
  object_id : String
  options : List String := []
deriving DecidableEq

/-- The closed set of semantic categories produced by the two classification
chains of `get_ids.py` (`Other` is the default / no-match case). -/
inductive Category where
  | binarySensor | sensor | textSensor | switch | button | light | fan | cover
  | climate | number | select | lock | time | text | mediaPlayer | camera | other
deriving DecidableEq

/-- Python `s.replace('Info','')`: remove every (left-to-right, non-overlapping)
occurrence of `Info`. -/
def replaceInfo : List Char → List Char
  | 'I' :: 'n' :: 'f' :: 'o' :: rest => replaceInfo rest
  | c :: rest => c :: replaceInfo rest
  | [] => []

/-- `entity_type = type(entity).__name__.replace('Info', '')` (lines 88, 165). -/
def entityType (e : Entity) : List Char := replaceInfo e.kind.toList

/-- The classifier implicit in the REST-synthesis branch chain of
`get_ids.py` lines 164-316: an if/elif chain of substring tests,
first match wins, defaulting to `Other`. -/
def classify (kind : List Char) : Category :=
  if "BinarySensor".toList <:+: kind then .binarySensor
  else if "TextSensor".toList <:+: kind then .textSensor
  else if "Sensor".toList <:+: kind then .sensor
  else if "Switch".toList <:+: kind then .switch
  else if "Light".toList <:+: kind then .light
  else if "Button".toList <:+: kind then .button
  else if "Fan".toList <:+: kind then .fan
  else if "Cover".toList <:+: kind then .cover
  else if "Climate".toList <:+: kind then .climate
  else if "Number".toList <:+: kind then .number
  else if "Select".toList <:+: kind then .select
  else if "Lock".toList <:+: kind then .lock
  else if "Time".toList <:+: kind then .time
  else if "Text".toList <:+: kind then .text
  else .other

/-- The classifier of the grouped entity listing of `get_ids.py`
lines 87-120 (note: `Sensor` carries explicit `Binary`/`Text` exclusion
guards, `TextSensor` is tested only after the controllable kinds, and there
are `MediaPlayer`/`Camera` branches but no `Time`/`Text` branches). -/
def listClassify (kind : List Char) : Category :=
  if "BinarySensor".toList <:+: kind then .binarySensor
  else if "Sensor".toList <:+: kind ∧ ¬("Binary".toList <:+: kind) ∧
      ¬("Text".toList <:+: kind) then .sensor
  else if "Switch".toList <:+: kind then .switch
  else if "Button".toList <:+: kind then .button
  else if "Light".toList <:+: kind then .light
  else if "Fan".toList <:+: kind then .fan
  else if "Cover".toList <:+: kind then .cover
  else if "Climate".toList <:+: kind then .climate
  else if "Number".toList <:+: kind then .number
  else if "Select".toList <:+: kind then .select
  else if "TextSensor".toList <:+: kind then .textSensor
  else if "Lock".toList <:+: kind then .lock
  else if "MediaPlayer".toList <:+: kind then .mediaPlayer
  else if "Camera".toList <:+: kind then .camera
  else .other

/-- One REST endpoint descriptor dictionary (the dicts appended to
`rest_endpoints`).  `actions` is `none` for the dicts that carry no
`'actions'` key (the three sensor categories); `options` is present only
for `Select`. -/
structure RestEndpoint where
  type : String
  entity : String
  object_id : String
  methods : List String
  endpoint : String
  actions : Option (List String) := none
  options : Option (List String) := none
deriving DecidableEq

/-- A record appended to `skipped_entities` (lines 312-316). -/
structure SkippedEntity where
  entity : String
  object_id : String
  type : String
deriving DecidableEq

/-- The descriptor built for one entity by the branch chain of lines 164-309,
or `none` if the final `else` (line 310) routes the entity to
`skipped_entities`. -/
def descFor (e : Entity) : Option RestEndpoint :=
  let t := entityType e
  if "BinarySensor".toList <:+: t then
    some { type := "Binary Sensor", entity := e.name, object_id := e.object_id,
           methods := ["GET"], endpoint := "/binary_sensor/" ++ e.object_id }
  else if "TextSensor".toList <:+: t then
    some { type := "Text Sensor", entity := e.name, object_id := e.object_id,
           methods := ["GET"], endpoint := "/text_sensor/" ++ e.object_id }
  else if "Sensor".toList <:+: t then
    some { type := "Sensor", entity := e.name, object_id := e.object_id,
           methods := ["GET"], endpoint := "/sensor/" ++ e.object_id }
  else if "Switch".toList <:+: t then
    some { type := "Switch", entity := e.name, object_id := e.object_id,
           methods := ["GET", "POST"], endpoint := "/switch/" ++ e.object_id,
           actions := some ["turn_on", "turn_off", "toggle"] }
  else if "Light".toList <:+: t then
    some { type := "Light", entity := e.name, object_id := e.object_id,
           methods := ["GET", "POST"], endpoint := "/light/" ++ e.object_id,
           actions := some ["turn_on", "turn_off", "toggle"] }
  else if "Button".toList <:+: t then
    some { type := "Button", entity := e.name, object_id := e.object_id,
           methods := ["GET", "POST"], endpoint := "/button/" ++ e.object_id,
           actions := some ["press"] }
  else if "Fan".toList <:+: t then
    some { type := "Fan", entity := e.name, object_id := e.object_id,
           methods := ["GET", "POST"], endpoint := "/fan/" ++ e.object_id,
           actions := some ["turn_on", "turn_off", "toggle"] }
  else if "Cover".toList <:+: t then
    some { type := "Cover", entity := e.name, object_id := e.object_id,
           methods := ["GET", "POST"], endpoint := "/cover/" ++ e.object_id,
           actions := some ["open", "close", "stop"] }
  else if "Climate".toList <:+: t then
    some { type := "Climate", entity := e.name, object_id := e.object_id,
           methods := ["GET", "POST"], endpoint := "/climate/" ++ e.object_id,
           actions := some ["set mode, temperature"] }
  else if "Number".toList <:+: t then
    some { type := "Number", entity := e.name, object_id := e.object_id,
           methods := ["GET", "POST"], endpoint := "/number/" ++ e.object_id,
           actions := some ["set value"] }
  else if "Select".toList <:+: t then
    some { type := "Select", entity := e.name, object_id := e.object_id,
           methods := ["GET", "POST"], endpoint := "/select/" ++ e.object_id,
           actions := some ["set option"], options := some e.options }
  else if "Lock".toList <:+: t then
    some { type := "Lock", entity := e.name, object_id := e.object_id,
           methods := ["GET", "POST"], endpoint := "/lock/" ++ e.object_id,
           actions := some ["lock", "unlock"] }
  else if "Time".toList <:+: t then
    some { type := "Time", entity := e.name, object_id := e.object_id,
           methods := ["GET", "POST"], endpoint := "/time/" ++ e.object_id,
           actions := some ["set time"] }
  else if "Text".toList <:+: t then
    some { type := "Text", entity := e.name, object_id := e.object_id,
           methods := ["GET", "POST"], endpoint := "/text/" ++ e.object_id,
           actions := some ["set text"] }
  else none

/-- The skip record built by the final `else` branch (lines 312-316). -/
def skipRecOf (e : Entity) : SkippedEntity :=
  { entity := e.name, object_id := e.object_id, type := String.mk (entityType e) }

/-- The synthesis loop (lines 161-316): one pass over the entity list,
appending either a descriptor to `rest_endpoints` or a record to
`skipped_entities`, preserving input order in both outputs. -/
def synthesize : List Entity → List RestEndpoint × List SkippedEntity
  | [] => ([], [])
  | e :: rest =>
    let r := synthesize rest
    match descFor e with
    | some d => (d :: r.1, r.2)
    | none => (r.1, skipRecOf e :: r.2)

/-- Display name of a category (the `'type'` string of the descriptor
dicts and the skip listing). -/
def catName : Category → String
  | .binarySensor => "Binary Sensor"
  | .sensor => "Sensor"
  | .textSensor => "Text Sensor"
  | .switch => "Switch"
  | .button => "Button"
  | .light => "Light"
  | .fan => "Fan"
  | .cover => "Cover"
  | .climate => "Climate"
  | .number => "Number"
  | .select => "Select"
  | .lock => "Lock"
  | .time => "Time"
  | .text => "Text"
  | .mediaPlayer => "Media Player"
  | .camera => "Camera"
  | .other => "Other"

/-- URL path segment of a REST-bearing category. -/
def catSlug : Category → String
  | .binarySensor => "binary_sensor"
  | .sensor => "sensor"
  | .textSensor => "text_sensor"
  | .switch => "switch"
  | .button => "button"
  | .light => "light"
  | .fan => "fan"
  | .cover => "cover"
  | .climate => "climate"
  | .number => "number"
  | .select => "select"
  | .lock => "lock"
  | .time => "time"
  | .text => "text"
  | _ => ""

/-- HTTP methods of a category's contract. -/
def catMethods : Category → List String
  | .binarySensor => ["GET"]
  | .sensor => ["GET"]
  | .textSensor => ["GET"]
  | .mediaPlayer => []
  | .camera => []
  | .other => []
  | _ => ["GET", "POST"]

/-- Action verbs of a category's contract (`none` when the descriptor dict
has no `'actions'` key). -/
def catActions : Category → Option (List String)
  | .switch => some ["turn_on", "turn_off", "toggle"]
  | .light => some ["turn_on", "turn_off", "toggle"]
  | .fan => some ["turn_on", "turn_off", "toggle"]
  | .button => some ["press"]
  | .cover => some ["open", "close", "stop"]
  | .climate => some ["set mode, temperature"]
  | .number => some ["set value"]
  | .select => some ["set option"]
  | .lock => some ["lock", "unlock"]
  | .time => some ["set time"]
  | .text => some ["set text"]
  | _ => none

/-- Whether a category owns a REST contract (produces a descriptor). -/
def restBearing : Category → Bool
  | .other => false
  | .mediaPlayer => false
  | .camera => false
  | _ => true

/-- The descriptor determined by a REST-bearing category and an entity. -/
def mkDesc (c : Category) (e : Entity) : RestEndpoint :=
  { type := catName c, entity := e.name, object_id := e.object_id,
    methods := catMethods c,
    endpoint := "/" ++ catSlug c ++ "/" ++ e.object_id,
    actions := catActions c,
    options := if c = .select then some e.options else none }

set_option maxHeartbeats 1600000 in
theorem descFor_eq (e : Entity) :
    descFor e = if restBearing (classify (entityType e))
      then some (mkDesc (classify (entityType e)) e) else none := by
  simp only [descFor, classify]
  by_cases h1 : "BinarySensor".toList <:+: entityType e
  · simp only [if_pos h1]; rfl
  simp only [if_neg h1]
  by_cases h2 : "TextSensor".toList <:+: entityType e
  · simp only [if_pos h2]; rfl
  simp only [if_neg h2]
  by_cases h3 : "Sensor".toList <:+: entityType e
  · simp only [if_pos h3]; rfl
  simp only [if_neg h3]
  by_cases h4 : "Switch".toList <:+: entityType e
  · simp only [if_pos h4]; rfl
  simp only [if_neg h4]
  by_cases h5 : "Light".toList <:+: entityType e
  · simp only [if_pos h5]; rfl
  simp only [if_neg h5]
  by_cases h6 : "Button".toList <:+: entityType e
  · simp only [if_pos h6]; rfl
  simp only [if_neg h6]
  by_cases h7 : "Fan".toList <:+: entityType e
  · simp only [if_pos h7]; rfl
  simp only [if_neg h7]
  by_cases h8 : "Cover".toList <:+: entityType e
  · simp only [if_pos h8]; rfl
  simp only [if_neg h8]
  by_cases h9 : "Climate".toList <:+: entityType e
  · simp only [if_pos h9]; rfl
  simp only [if_neg h9]
  by_cases h10 : "Number".toList <:+: entityType e
  · simp only [if_pos h10]; rfl
  simp only [if_neg h10]
  by_cases h11 : "Select".toList <:+: entityType e
  · simp only [if_pos h11]; rfl
  simp only [if_neg h11]
  by_cases h12 : "Lock".toList <:+: entityType e
  · simp only [if_pos h12]; rfl
  simp only [if_neg h12]
  by_cases h13 : "Time".toList <:+: entityType e
  · simp only [if_pos h13]; rfl
  simp only [if_neg h13]
  by_cases h14 : "Text".toList <:+: entityType e
  · simp only [if_pos h14]; rfl
  simp only [if_neg h14]
  rfl

/-- The synthesis branch chain of lines 164-316 as an ordered list of
(substring key, category) rules, in source order. -/
def rules : List (List Char × Category) :=
  [("BinarySensor".toList, .binarySensor),
   ("TextSensor".toList, .textSensor),
   ("Sensor".toList, .sensor),
   ("Switch".toList, .switch),
   ("Light".toList, .light),
   ("Button".toList, .button),
   ("Fan".toList, .fan),
   ("Cover".toList, .cover),
   ("Climate".toList, .climate),
   ("Number".toList, .number),
   ("Select".toList, .select),
   ("Lock".toList, .lock),
   ("Time".toList, .time),
   ("Text".toList, .text)]

/-- First-match-wins evaluation of an ordered list of (predicate, category)
rules, defaulting to `Other` when no rule matches. -/
def firstMatch : List (List Char × Category) → List Char → Category
  | [], _ => .other
  | r :: rest, kind => if r.1 <:+: kind then r.2 else firstMatch rest kind

theorem firstMatch_eq_other_of_no_match (rs : List (List Char × Category))
    (kind : List Char) (h : ∀ r ∈ rs, ¬(r.1 <:+: kind)) :
    firstMatch rs kind = .other := by
  induction rs with
  | nil => rfl
  | cons r rest ih =>
    rw [firstMatch, if_neg (h r (by simp))]
    exact ih fun r' hr' => h r' (by simp [hr'])

theorem no_match_of_firstMatch_eq_other (rs : List (List Char × Category))
    (kind : List Char) (hno : Category.other ∉ rs.map Prod.snd)
    (h : firstMatch rs kind = .other) : ∀ r ∈ rs, ¬(r.1 <:+: kind) := by
  induction rs with
  | nil => simp
  | cons r rest ih =>
    intro r' hr'
    rw [firstMatch] at h
    by_cases hr : r.1 <:+: kind
    · rw [if_pos hr] at h
      have hm : Category.other ∈ (r :: rest).map Prod.snd := by
        rw [← h]
        exact List.mem_map_of_mem Prod.snd (List.mem_cons_self r rest)
      exact absurd hm hno
    · rw [if_neg hr] at h
      rcases List.mem_cons.mp hr' with rfl | hmem
      · exact hr
      · exact ih (fun hc => hno (List.mem_map.mpr (by
          obtain ⟨x, hx, he⟩ := List.mem_map.mp hc
          exact ⟨x, List.mem_cons_of_mem r hx, he⟩))) h r' hmem

/-- C3: classification is total: `classify` is a function (so it returns
exactly one `Category` for every input string and cannot fail), it equals
first-match-wins evaluation of the ordered rule list, and it falls through
to `Other` exactly when no rule's substring matches. -/
theorem classify_total_first_match (kind : List Char) :
    classify kind = firstMatch rules kind ∧
    (classify kind = .other ↔ ∀ r ∈ rules, ¬(r.1 <:+: kind)) := by
  have h : classify kind = firstMatch rules kind := rfl
  refine ⟨h, ?_, ?_⟩
  · intro ho
    exact no_match_of_firstMatch_eq_other rules kind (by decide) (h ▸ ho)
  · intro hnone
    exact h ▸ firstMatch_eq_other_of_no_match rules kind hnone

/-- C3 witness: on the concrete kind `"WeirdThing"` no rule matches and
classification falls through to `Other`. -/
theorem classify_total_first_match_witness :
    classify "WeirdThing".toList = Category.other :=
  (classify_total_first_match "WeirdThing".toList).2.mpr (by decide)

/-- C2 counterexample: the kind `"BinaryFooSensor"` contains both `"Binary"`
and `"Sensor"` as substrings, yet the synthesis chain classifies it as plain
`Sensor` (its first rule tests the contiguous substring `"BinarySensor"`),
and the listing chain classifies it as `Other` (its `Sensor` rule excludes
any kind containing `"Binary"`).  The kind `"TextFooSensor"` shows the same
for `"Text"`/`"Sensor"`. -/
theorem sensor_priority_cex :
    ("Binary".toList <:+: "BinaryFooSensor".toList) ∧
    ("Sensor".toList <:+: "BinaryFooSensor".toList) ∧
    classify "BinaryFooSensor".toList = Category.sensor ∧
    listClassify "BinaryFooSensor".toList = Category.other ∧
    ("Text".toList <:+: "TextFooSensor".toList) ∧
    ("Sensor".toList <:+: "TextFooSensor".toList) ∧
    classify "TextFooSensor".toList = Category.sensor := by decide

/-- C2 amended: the priority rules key on the contiguous substrings
`"BinarySensor"` / `"TextSensor"`, not on the separate substrings: a kind
containing `"BinarySensor"` classifies as Binary Sensor; a kind containing
`"TextSensor"` classifies as Text Sensor unless it also contains
`"BinarySensor"`; in either case the result is never plain `Sensor`. -/
theorem contiguous_sensor_priority (kind : List Char) :
    ("BinarySensor".toList <:+: kind → classify kind = .binarySensor) ∧
    ("TextSensor".toList <:+: kind → ¬("BinarySensor".toList <:+: kind) →
      classify kind = .textSensor) ∧
    (("BinarySensor".toList <:+: kind ∨ "TextSensor".toList <:+: kind) →
      classify kind ≠ .sensor) := by
  refine ⟨fun h => ?_, fun ht hb => ?_, fun hor => ?_⟩
  · rw [classify, if_pos h]
  · rw [classify, if_neg hb, if_pos ht]
  · by_cases hb : "BinarySensor".toList <:+: kind
    · rw [classify, if_pos hb]; exact fun hc => by cases hc
    · rcases hor with h | ht
      · exact absurd h hb
      · rw [classify, if_neg hb, if_pos ht]; exact fun hc => by cases hc

/-- C2 amended witness: concrete kinds `"BinarySensorInfo"`-style labels. -/
theorem contiguous_sensor_priority_witness :
    classify "MyBinarySensor".toList = Category.binarySensor ∧
    classify "MyTextSensor".toList = Category.textSensor ∧
    classify "MyTextSensor".toList ≠ Category.sensor :=
  ⟨(contiguous_sensor_priority "MyBinarySensor".toList).1 (by decide),
   (contiguous_sensor_priority "MyTextSensor".toList).2.1 (by decide) (by decide),
   (contiguous_sensor_priority "MyTextSensor".toList).2.2 (Or.inr (by decide))⟩

theorem synthesize_eq (es : List Entity) :
    (synthesize es).1 = es.filterMap descFor ∧
    (synthesize es).2 = (es.filter (fun e => (descFor e).isNone)).map skipRecOf := by
  induction es with
  | nil => exact ⟨rfl, rfl⟩
  | cons e rest ih =>
    rcases hd : descFor e with _ | d <;>
      simp [synthesize, hd, ih.1, ih.2, List.filterMap_cons, List.filter_cons]

theorem synthesize_length (es : List Entity) :
    (synthesize es).1.length + (synthesize es).2.length = es.length := by
  induction es with
  | nil => rfl
  | cons e rest ih =>
    rcases hd : descFor e with _ | d <;> simp [synthesize, hd] <;> omega

/-- C9: synthesis partitions its input: each entity contributes exactly one
element to exactly one of the two outputs (the descriptor stream is the
`filterMap` of the per-entity branch chain, the skip stream is the filtered
remainder), lengths add up to the input length, and both outputs preserve
the relative input order. -/
theorem synthesize_partition (es : List Entity) :
    (synthesize es).1.length + (synthesize es).2.length = es.length ∧
    (synthesize es).1 = es.filterMap descFor ∧
    (synthesize es).2 = (es.filter (fun e => (descFor e).isNone)).map skipRecOf :=
  ⟨synthesize_length es, (synthesize_eq es).1, (synthesize_eq es).2⟩

theorem mkDesc_type_not_display (c : Category) (e : Entity)
    (hr : restBearing c = true) :
    (mkDesc c e).type ≠ "Other" ∧ (mkDesc c e).type ≠ "Media Player" ∧
    (mkDesc c e).type ≠ "Camera" := by
  cases c <;> simp only [mkDesc] <;> first | exact absurd hr (by decide) | decide

/-- C1: every entity whose kind classifies to a REST-bearing category yields
exactly one descriptor (the output is the `filterMap` of the per-entity
builder, which succeeds exactly on REST-bearing categories); the built
descriptor's path is `/<categorySlug>/<objectId>` and its methods and
actions are the pure category-to-contract table values (for `Switch`:
methods GET,POST and actions turn_on,turn_off,toggle; for `Binary Sensor`:
methods GET and no actions); no descriptor carries category Other,
Media Player or Camera. -/
theorem rest_surface_contract (es : List Entity) :
    (synthesize es).1 = es.filterMap descFor ∧
    (∀ e : Entity, (descFor e).isSome = restBearing (classify (entityType e))) ∧
    (∀ e d, descFor e = some d →
      d = mkDesc (classify (entityType e)) e ∧
      d.type = catName (classify (entityType e)) ∧
      d.endpoint = "/" ++ catSlug (classify (entityType e)) ++ "/" ++ e.object_id ∧
      d.methods = catMethods (classify (entityType e)) ∧
      d.actions = catActions (classify (entityType e)) ∧
      d.type ≠ "Other" ∧ d.type ≠ "Media Player" ∧ d.type ≠ "Camera") ∧
    catMethods .switch = ["GET", "POST"] ∧
    catActions .switch = some ["turn_on", "turn_off", "toggle"] ∧
    catMethods .binarySensor = ["GET"] ∧
    catActions .binarySensor = none := by
  refine ⟨(synthesize_eq es).1, fun e => ?_, fun e d hd => ?_, rfl, rfl, rfl, rfl⟩
  · rw [descFor_eq]
    by_cases hr : restBearing (classify (entityType e)) = true
    · simp [hr]
    · simp [Bool.not_eq_true] at hr
      simp [hr]
  · rw [descFor_eq] at hd
    by_cases hr : restBearing (classify (entityType e)) = true
    · rw [if_pos hr] at hd
      injection hd with hd'
      subst hd'
      exact ⟨rfl, rfl, rfl, rfl, rfl, mkDesc_type_not_display _ e hr⟩
    · rw [if_neg hr] at hd
      cases hd

/-- A concrete `Switch` entity (Scenario B of the spec). -/
def exSwitch : Entity :=
  { key := 1, kind := "SwitchInfo", name := "Pool Pump", object_id := "pool_pump" }

/-- The descriptor the synthesis chain builds for `exSwitch`. -/
def exSwitchDesc : RestEndpoint :=
  { type := "Switch", entity := "Pool Pump", object_id := "pool_pump",
    methods := ["GET", "POST"], endpoint := "/switch/pool_pump",
    actions := some ["turn_on", "turn_off", "toggle"] }

/-- C1 witness: the contract instantiated at the concrete switch entity. -/
theorem rest_surface_contract_witness :
    exSwitchDesc = mkDesc (classify (entityType exSwitch)) exSwitch ∧
    exSwitchDesc.type = catName (classify (entityType exSwitch)) ∧
    exSwitchDesc.endpoint =
      "/" ++ catSlug (classify (entityType exSwitch)) ++ "/" ++ exSwitch.object_id ∧
    exSwitchDesc.methods = catMethods (classify (entityType exSwitch)) ∧
    exSwitchDesc.actions = catActions (classify (entityType exSwitch)) ∧
    exSwitchDesc.type ≠ "Other" ∧ exSwitchDesc.type ≠ "Media Player" ∧
    exSwitchDesc.type ≠ "Camera" :=
  (rest_surface_contract [exSwitch]).2.2.1 exSwitch exSwitchDesc (by decide)

/-- Categories that appear in the grouped entity listing but never yield a
REST descriptor (plus the no-match default). -/
def displayOnly : Category → Bool
  | .mediaPlayer => true
  | .camera => true
  | .other => true
  | _ => false

/-- A concrete `Time` entity. -/
def exTime : Entity :=
  { key := 2, kind := "TimeInfo", name := "Pump Start", object_id := "pump_start" }

/-- C10 counterexample: the two classification chains disagree.  The kind
`"Time"` is `Other` in the listing chain (which has no Time branch) yet the
synthesis chain classifies it `Time` and builds a descriptor for the entity;
the kind `"LightButton"` is `Button` in the listing chain but `Light` in the
synthesis chain (the two chains test Light and Button in opposite order). -/
theorem classifier_agreement_cex :
    listClassify "Time".toList = Category.other ∧
    classify "Time".toList = Category.time ∧
    (descFor exTime).isSome = true ∧
    listClassify "LightButton".toList = Category.button ∧
    classify "LightButton".toList = Category.light := by decide

/-- C10 amended: the listing classifier and the synthesis classifier agree
(with the listing's display-only Media Player / Camera / Other groups
corresponding to no descriptor) for every kind in which the rule keywords
occur unambiguously: `"Sensor"` occurs only inside `"BinarySensor"` /
`"TextSensor"` or with neither `"Binary"` nor `"Text"` elsewhere,
`"TextSensor"` does not occur together with a controllable keyword,
`"Light"` and `"Button"` do not both occur, `"Time"` does not occur, and
`"Text"` occurs only inside `"TextSensor"`.  Kinds outside this set can
disagree, as the counterexample shows. -/
theorem classifier_agreement (k : List Char)
    (hS : "Sensor".toList <:+: k →
      ("BinarySensor".toList <:+: k ∨ "TextSensor".toList <:+: k ∨
        (¬("Binary".toList <:+: k) ∧ ¬("Text".toList <:+: k))))
    (hTS : "TextSensor".toList <:+: k →
      ¬("Switch".toList <:+: k) ∧ ¬("Button".toList <:+: k) ∧
      ¬("Light".toList <:+: k) ∧ ¬("Fan".toList <:+: k) ∧
      ¬("Cover".toList <:+: k) ∧ ¬("Climate".toList <:+: k) ∧
      ¬("Number".toList <:+: k) ∧ ¬("Select".toList <:+: k))
    (hLB : ¬("Light".toList <:+: k ∧ "Button".toList <:+: k))
    (hTi : ¬("Time".toList <:+: k))
    (hTe : "Text".toList <:+: k → "TextSensor".toList <:+: k) :
    classify k = if displayOnly (listClassify k) then Category.other
      else listClassify k := by
  by_cases hBS : "BinarySensor".toList <:+: k
  · simp only [classify, listClassify, if_pos hBS]; rfl
  by_cases hTSin : "TextSensor".toList <:+: k
  · obtain ⟨hSw, hBu, hLi, hFa, hCo, hCl, hNu, hSe⟩ := hTS hTSin
    have hT : "Text".toList <:+: k := List.IsInfix.trans (by decide) hTSin
    have hGuard : ¬("Sensor".toList <:+: k ∧ ¬("Binary".toList <:+: k) ∧
        ¬("Text".toList <:+: k)) := fun h => h.2.2 hT
    simp only [classify, listClassify, if_neg hBS, if_pos hTSin, if_neg hGuard,
      if_neg hSw, if_neg hBu, if_neg hLi, if_neg hFa, if_neg hCo, if_neg hCl,
      if_neg hNu, if_neg hSe]
    rfl
  by_cases hSen : "Sensor".toList <:+: k
  · rcases hS hSen with h | h | ⟨hBn, hTn⟩
    · exact absurd h hBS
    · exact absurd h hTSin
    · simp only [classify, listClassify, if_neg hBS, if_neg hTSin, if_pos hSen,
        if_pos (show "Sensor".toList <:+: k ∧ ¬("Binary".toList <:+: k) ∧
          ¬("Text".toList <:+: k) from ⟨hSen, hBn, hTn⟩)]
      rfl
  have hGuard : ¬("Sensor".toList <:+: k ∧ ¬("Binary".toList <:+: k) ∧
      ¬("Text".toList <:+: k)) := fun h => hSen h.1
  by_cases hSw : "Switch".toList <:+: k
  · simp only [classify, listClassify, if_neg hBS, if_neg hTSin, if_neg hSen,
      if_neg hGuard, if_pos hSw]
    rfl
  by_cases hLi : "Light".toList <:+: k
  · have hBu : ¬("Button".toList <:+: k) := fun hb => hLB ⟨hLi, hb⟩
    simp only [classify, listClassify, if_neg hBS, if_neg hTSin, if_neg hSen,
      if_neg hGuard, if_neg hSw, if_neg hBu, if_pos hLi]
    rfl
  by_cases hBu : "Button".toList <:+: k
  · simp only [classify, listClassify, if_neg hBS, if_neg hTSin, if_neg hSen,
      if_neg hGuard, if_neg hSw, if_neg hLi, if_pos hBu]
    rfl
  by_cases hFa : "Fan".toList <:+: k
  · simp only [classify, listClassify, if_neg hBS, if_neg hTSin, if_neg hSen,
      if_neg hGuard, if_neg hSw, if_neg hLi, if_neg hBu, if_pos hFa]
    rfl
  by_cases hCo : "Cover".toList <:+: k
  · simp only [classify, listClassify, if_neg hBS, if_neg hTSin, if_neg hSen,
      if_neg hGuard, if_neg hSw, if_neg hLi, if_neg hBu, if_neg hFa, if_pos hCo]
    rfl
  by_cases hCl : "Climate".toList <:+: k
  · simp only [classify, listClassify, if_neg hBS, if_neg hTSin, if_neg hSen,
      if_neg hGuard, if_neg hSw, if_neg hLi, if_neg hBu, if_neg hFa, if_neg hCo,
      if_pos hCl]
    rfl
  by_cases hNu : "Number".toList <:+: k
  · simp only [classify, listClassify, if_neg hBS, if_neg hTSin, if_neg hSen,
      if_neg hGuard, if_neg hSw, if_neg hLi, if_neg hBu, if_neg hFa, if_neg hCo,
      if_neg hCl, if_pos hNu]
    rfl
  by_cases hSe : "Select".toList <:+: k
  · simp only [classify, listClassify, if_neg hBS, if_neg hTSin, if_neg hSen,
      if_neg hGuard, if_neg hSw, if_neg hLi, if_neg hBu, if_neg hFa, if_neg hCo,
      if_neg hCl, if_neg hNu, if_pos hSe]
    rfl
  by_cases hLo : "Lock".toList <:+: k
  · simp only [classify, listClassify, if_neg hBS, if_neg hTSin, if_neg hSen,
      if_neg hGuard, if_neg hSw, if_neg hLi, if_neg hBu, if_neg hFa, if_neg hCo,
      if_neg hCl, if_neg hNu, if_neg hSe, if_pos hLo]
    rfl
  have hTx : ¬("Text".toList <:+: k) := fun h => hTSin (hTe h)
  by_cases hMP : "MediaPlayer".toList <:+: k
  · simp only [classify, listClassify, if_neg hBS, if_neg hTSin, if_neg hSen,
      if_neg hGuard, if_neg hSw, if_neg hLi, if_neg hBu, if_neg hFa, if_neg hCo,
      if_neg hCl, if_neg hNu, if_neg hSe, if_neg hLo, if_neg hTi, if_neg hTx,
      if_pos hMP]
    rfl
  by_cases hCa : "Camera".toList <:+: k
  · simp only [classify, listClassify, if_neg hBS, if_neg hTSin, if_neg hSen,
      if_neg hGuard, if_neg hSw, if_neg hLi, if_neg hBu, if_neg hFa, if_neg hCo,
      if_neg hCl, if_neg hNu, if_neg hSe, if_neg hLo, if_neg hTi, if_neg hTx,
      if_neg hMP, if_pos hCa]
    rfl
  simp only [classify, listClassify, if_neg hBS, if_neg hTSin, if_neg hSen,
    if_neg hGuard, if_neg hSw, if_neg hLi, if_neg hBu, if_neg hFa, if_neg hCo,
    if_neg hCl, if_neg hNu, if_neg hSe, if_neg hLo, if_neg hTi, if_neg hTx,
    if_neg hMP, if_neg hCa]
  rfl

/-- C10 amended witness: the two classifiers agree at the concrete kind
`"TextSensor"`. -/
theorem classifier_agreement_witness :
    classify "TextSensor".toList =
      if displayOnly (listClassify "TextSensor".toList) then Category.other
      else listClassify "TextSensor".toList :=
  classifier_agreement "TextSensor".toList (by decide) (by decide) (by decide)
    (by decide) (by decide)

/-- Python string comparison: lexicographic by code point.
`charListLe a b` decides `a ≤ b`. -/
def charListLe : List Char → List Char → Bool
  | [], _ => true
  | _ :: _, [] => false
  | a :: as, b :: bs =>
    if a.toNat < b.toNat then true
    else if b.toNat < a.toNat then false
    else charListLe as bs

theorem charListLe_total : ∀ a b, charListLe a b = true ∨ charListLe b a = true
  | [], _ => Or.inl rfl
  | _ :: _, [] => Or.inr rfl
  | a :: as, b :: bs => by
    simp only [charListLe]
    rcases Nat.lt_trichotomy a.toNat b.toNat with h | h | h
    · left
      rw [if_pos h]
    · rw [if_neg (by omega), if_neg (by omega), if_neg (by omega), if_neg (by omega)]
      exact charListLe_total as bs
    · right
      rw [if_pos h]

theorem charListLe_trans : ∀ a b c, charListLe a b = true → charListLe b c = true →
    charListLe a c = true
  | [], _, _ => fun _ _ => rfl
  | _ :: _, [], _ => fun h _ => by cases h
  | _ :: _, _ :: _, [] => fun _ h => by cases h
  | a :: as, b :: bs, c :: cs => by
    simp only [charListLe]
    intro h1 h2
    rcases Nat.lt_trichotomy a.toNat b.toNat with hab | hab | hab
    · rcases Nat.lt_trichotomy b.toNat c.toNat with hbc | hbc | hbc
      · rw [if_pos (by omega)]
      · rw [if_pos (by omega)]
      · rw [if_neg (by omega), if_pos hbc] at h2
        cases h2
    · rcases Nat.lt_trichotomy b.toNat c.toNat with hbc | hbc | hbc
      · rw [if_pos (by omega)]
      · rw [if_neg (by omega), if_neg (by omega)]
        rw [if_neg (by omega), if_neg (by omega)] at h1
        rw [if_neg (by omega), if_neg (by omega)] at h2
        exact charListLe_trans as bs cs h1 h2
      · rw [if_neg (by omega), if_pos hbc] at h2
        cases h2
    · rw [if_neg (by omega), if_pos hab] at h1
      cases h1

theorem uint32_eq_of_toNat_eq {a b : UInt32} (h : a.toNat = b.toNat) : a = b := by
  cases a
  cases b
  congr 1
  exact BitVec.eq_of_toNat_eq h

theorem char_eq_of_toNat_eq {a b : Char} (h : a.toNat = b.toNat) : a = b :=
  Char.eq_of_val_eq (uint32_eq_of_toNat_eq h)

theorem charListLe_antisymm : ∀ a b, charListLe a b = true → charListLe b a = true →
    a = b
  | [], [] => fun _ _ => rfl
  | [], _ :: _ => fun _ h => by cases h
  | _ :: _, [] => fun h _ => by cases h
  | a :: as, b :: bs => by
    simp only [charListLe]
    intro h1 h2
    rcases Nat.lt_trichotomy a.toNat b.toNat with hab | hab | hab
    · rw [if_neg (by omega), if_pos hab] at h2
      cases h2
    · rw [if_neg (by omega), if_neg (by omega)] at h1 h2
      rw [char_eq_of_toNat_eq hab, charListLe_antisymm as bs h1 h2]
    · rw [if_neg (by omega), if_pos hab] at h1
      cases h1

/-- String order used to model Python's `sorted` key comparisons. -/
def strLe (a b : String) : Prop := charListLe a.toList b.toList = true

instance (a b : String) : Decidable (strLe a b) :=
  inferInstanceAs (Decidable (_ = _))

theorem strLe_antisymm {a b : String} (h1 : strLe a b) (h2 : strLe b a) : a = b :=
  String.ext (charListLe_antisymm _ _ h1 h2)

/-- `sorted(..., key=lambda x: x['object_id'])` of line 339. -/
def objIdLe (a b : RestEndpoint) : Prop := strLe a.object_id b.object_id

instance : DecidableRel objIdLe := fun _ _ => inferInstanceAs (Decidable (strLe _ _))

instance : IsTotal RestEndpoint objIdLe := ⟨fun _ _ => charListLe_total _ _⟩

instance : IsTrans RestEndpoint objIdLe := ⟨fun _ _ _ => charListLe_trans _ _ _⟩

/-- `sorted(..., key=lambda e: e['entity'])` of line 562. -/
def entityLe (a b : RestEndpoint) : Prop := strLe a.entity b.entity

instance : DecidableRel entityLe := fun _ _ => inferInstanceAs (Decidable (strLe _ _))

instance : IsTotal RestEndpoint entityLe := ⟨fun _ _ => charListLe_total _ _⟩

instance : IsTrans RestEndpoint entityLe := ⟨fun _ _ _ => charListLe_trans _ _ _⟩

/-- The key comparison of `sorted(endpoint_groups.items())` (line 337): the
dict keys are distinct, so Python's tuple comparison reduces to comparing
the key strings. -/
def groupKeyLe (a b : String × List RestEndpoint) : Prop := strLe a.1 b.1

instance : DecidableRel groupKeyLe := fun _ _ => inferInstanceAs (Decidable (strLe _ _))

instance : IsTotal (String × List RestEndpoint) groupKeyLe :=
  ⟨fun _ _ => charListLe_total _ _⟩

instance : IsTrans (String × List RestEndpoint) groupKeyLe :=
  ⟨fun _ _ _ => charListLe_trans _ _ _⟩

/-- One step of the group-dict building loops (lines 330-334 and 547-551):
append `ep` to its type's group, keeping first-occurrence key order
(Python dicts preserve insertion order). -/
def addToGroups : List (String × List RestEndpoint) → RestEndpoint →
    List (String × List RestEndpoint)
  | [], ep => [(ep.type, [ep])]
  | (t, l) :: rest, ep =>
    if t = ep.type then (t, l ++ [ep]) :: rest
    else (t, l) :: addToGroups rest ep

/-- The `endpoint_groups` / `groups` dict (lines 329-334, 546-551). -/
def endpointGroups (eps : List RestEndpoint) : List (String × List RestEndpoint) :=
  eps.foldl addToGroups []

/-- Dict lookup (`groups[t]`, `t in groups`). -/
def getGroup : List (String × List RestEndpoint) → String → Option (List RestEndpoint)
  | [], _ => none
  | (t', l) :: rest, t => if t' = t then some l else getGroup rest t

theorem getGroup_addToGroups_self (gs : List (String × List RestEndpoint))
    (ep : RestEndpoint) :
    getGroup (addToGroups gs ep) ep.type =
      some ((getGroup gs ep.type).getD [] ++ [ep]) := by
  induction gs with
  | nil => simp [addToGroups, getGroup]
  | cons g rest ih =>
    obtain ⟨s, l⟩ := g
    by_cases h : s = ep.type
    · simp [addToGroups, getGroup, h]
    · simp [addToGroups, getGroup, h, ih]

theorem getGroup_addToGroups_other (gs : List (String × List RestEndpoint))
    (ep : RestEndpoint) (t : String) (ht : ¬t = ep.type) :
    getGroup (addToGroups gs ep) t = getGroup gs t := by
  induction gs with
  | nil => simp [addToGroups, getGroup, Ne.symm ht]
  | cons g rest ih =>
    obtain ⟨s, l⟩ := g
    by_cases h : s = ep.type
    · simp [addToGroups, getGroup, h, Ne.symm ht]
    · by_cases h2 : s = t
      · simp [addToGroups, getGroup, h, h2, ht, Ne.symm ht]
      · simp [addToGroups, getGroup, h, h2, ih]

theorem getGroup_addToGroups (gs : List (String × List RestEndpoint))
    (ep : RestEndpoint) (t : String) :
    getGroup (addToGroups gs ep) t =
      if t = ep.type then some ((getGroup gs t).getD [] ++ [ep])
      else getGroup gs t := by
  by_cases h : t = ep.type
  · rw [if_pos h, h]
    exact getGroup_addToGroups_self gs ep
  · rw [if_neg h]
    exact getGroup_addToGroups_other gs ep t h

theorem getGroup_foldl (eps : List RestEndpoint) :
    ∀ (acc : List (String × List RestEndpoint)) (t : String),
      ((getGroup (eps.foldl addToGroups acc) t).getD [] =
        (getGroup acc t).getD [] ++ eps.filter (fun e => e.type = t)) ∧
      (getGroup (eps.foldl addToGroups acc) t = none ↔
        getGroup acc t = none ∧ eps.filter (fun e => e.type = t) = []) := by
  induction eps with
  | nil => simp
  | cons e rest ih =>
    intro acc t
    rw [List.foldl_cons]
    obtain ⟨ih1, ih2⟩ := ih (addToGroups acc e) t
    constructor
    · rw [ih1, getGroup_addToGroups]
      by_cases h : t = e.type
      · rw [if_pos h, List.filter_cons_of_pos (by simpa using h.symm)]
        simp
      · rw [if_neg h, List.filter_cons_of_neg (by simpa using fun hc => h hc.symm)]
    · rw [ih2, getGroup_addToGroups]
      by_cases h : t = e.type
      · rw [if_pos h, List.filter_cons_of_pos (by simpa using h.symm)]
        simp
      · rw [if_neg h, List.filter_cons_of_neg (by simpa using fun hc => h hc.symm)]

/-- The group looked up in `endpoint_groups` is exactly the filtered
sub-sequence of the descriptor list with that type, in input order. -/
theorem getGroup_endpointGroups (eps : List RestEndpoint) (t : String) :
    (getGroup (endpointGroups eps) t).getD [] =
      eps.filter (fun e => e.type = t) ∧
    (getGroup (endpointGroups eps) t = none ↔
      eps.filter (fun e => e.type = t) = []) := by
  obtain ⟨h1, h2⟩ := getGroup_foldl eps [] t
  refine ⟨by simpa [getGroup] using h1, by simpa [getGroup] using h2⟩

theorem groupKeys_addToGroups (gs : List (String × List RestEndpoint))
    (ep : RestEndpoint) :
    (addToGroups gs ep).map Prod.fst =
      if ep.type ∈ gs.map Prod.fst then gs.map Prod.fst
      else gs.map Prod.fst ++ [ep.type] := by
  induction gs with
  | nil => simp [addToGroups]
  | cons g rest ih =>
    obtain ⟨s, l⟩ := g
    by_cases h1 : s = ep.type
    · simp [addToGroups, h1]
    · simp only [addToGroups, if_neg h1, List.map_cons, List.mem_cons, ih]
      by_cases h2 : ep.type ∈ rest.map Prod.fst
      · simp [h2]
      · simp [h2, Ne.symm h1]

theorem groupKeys_nodup (eps : List RestEndpoint) :
    ∀ acc : List (String × List RestEndpoint),
      (acc.map Prod.fst).Nodup → ((eps.foldl addToGroups acc).map Prod.fst).Nodup := by
  induction eps with
  | nil => exact fun acc h => h
  | cons e rest ih =>
    intro acc h
    rw [List.foldl_cons]
    refine ih (addToGroups acc e) ?_
    rw [groupKeys_addToGroups]
    by_cases hm : e.type ∈ acc.map Prod.fst
    · rwa [if_pos hm]
    · rw [if_neg hm]
      refine List.nodup_append.mpr ⟨h, by simp, ?_⟩
      intro a ha hae
      simp only [List.mem_singleton] at hae
      exact hm (hae ▸ ha)

theorem getGroup_of_mem (gs : List (String × List RestEndpoint))
    (hn : (gs.map Prod.fst).Nodup) (p : String × List RestEndpoint) (hp : p ∈ gs) :
    getGroup gs p.1 = some p.2 := by
  induction gs with
  | nil => cases hp
  | cons g rest ih =>
    obtain ⟨t', l⟩ := g
    rcases List.mem_cons.mp hp with rfl | hmem
    · simp [getGroup]
    · have hne : t' ≠ p.1 := by
        intro hc
        have : p.1 ∈ rest.map Prod.fst := List.mem_map_of_mem Prod.fst hmem
        rw [← hc] at this
        exact (List.nodup_cons.mp (by simpa using hn)).1 this
      simpa [getGroup, hne] using ih (List.nodup_cons.mp (by simpa using hn)).2 hmem

/-- Every group in the dict is the type-filtered sub-sequence of the input. -/
theorem mem_endpointGroups (eps : List RestEndpoint)
    (p : String × List RestEndpoint) (hp : p ∈ endpointGroups eps) :
    p.2 = eps.filter (fun e => e.type = p.1) := by
  have hn : ((endpointGroups eps).map Prod.fst).Nodup :=
    groupKeys_nodup eps [] (by simp)
  have := getGroup_of_mem (endpointGroups eps) hn p hp
  have hd := (getGroup_endpointGroups eps p.1).1
  rw [this] at hd
  simpa using hd

/-- The fixed category display order of `_generate_html` (lines 554-555). -/
def type_order : List String :=
  ["Binary Sensor", "Sensor", "Text Sensor", "Switch", "Button",
   "Light", "Fan", "Cover", "Climate", "Number", "Select", "Lock", "Time", "Text"]

/-- The order in which `_generate_html` emits entity cards (lines 558-568):
iterate `type_order`, skip absent groups, sort each group by the `entity`
field. -/
def htmlCardOrder (eps : List RestEndpoint) : List RestEndpoint :=
  type_order.flatMap (fun t =>
    match getGroup (endpointGroups eps) t with
    | none => []
    | some g => List.insertionSort entityLe g)

/-- The order in which the console listing enumerates endpoints
(lines 336-346): groups sorted by dict key, then each group sorted by
`object_id`. -/
def consoleOrder (eps : List RestEndpoint) : List RestEndpoint :=
  (List.insertionSort groupKeyLe (endpointGroups eps)).flatMap
    (fun p => List.insertionSort objIdLe p.2)

/-- Modelled from the spec: the mandated enumeration order — grouped by
category in the fixed iteration order, sorted by `objectId` within each
group (spec §4.2); stated from the spec's words for comparison with the
code's two display paths. -/
def specMandatedOrder (eps : List RestEndpoint) : List RestEndpoint :=
  type_order.flatMap (fun t =>
    List.insertionSort objIdLe (eps.filter (fun e => e.type = t)))

theorem bind_congr_mem {α β : Type} (l : List α) (f g : α → List β)
    (h : ∀ a ∈ l, f a = g a) : l.flatMap f = l.flatMap g := by
  induction l with
  | nil => rfl
  | cons a rest ih =>
    simp only [List.flatMap_cons, h a (by simp),
      ih (fun a ha => h a (by simp [ha]))]

/-- The html generator's card stream equals: iterate the fixed type order,
take the type-filtered descriptors, sort them by entity name. -/
theorem htmlCardOrder_eq (eps : List RestEndpoint) :
    htmlCardOrder eps = type_order.flatMap (fun t =>
      List.insertionSort entityLe (eps.filter (fun e => e.type = t))) := by
  unfold htmlCardOrder
  refine bind_congr_mem _ _ _ (fun t _ => ?_)
  rcases hg : getGroup (endpointGroups eps) t with _ | g
  · have hnone := (getGroup_endpointGroups eps t).2.mp hg
    simp [hnone]
  · have hd := (getGroup_endpointGroups eps t).1
    rw [hg] at hd
    simp only [Option.getD_some] at hd
    rw [hd]

/-- The console enumeration equals: iterate the groups in sorted key order,
take the type-filtered descriptors, sort them by object id. -/
theorem consoleOrder_eq (eps : List RestEndpoint) :
    consoleOrder eps = (List.insertionSort groupKeyLe (endpointGroups eps)).flatMap
      (fun p => List.insertionSort objIdLe (eps.filter (fun e => e.type = p.1))) := by
  unfold consoleOrder
  refine bind_congr_mem _ _ _ (fun p hp => ?_)
  have hp' : p ∈ endpointGroups eps := (List.mem_insertionSort groupKeyLe).mp hp
  rw [mem_endpointGroups eps p hp']

theorem flatMap_addToGroups (gs : List (String × List RestEndpoint))
    (ep : RestEndpoint) :
    ((addToGroups gs ep).flatMap Prod.snd).Perm (gs.flatMap Prod.snd ++ [ep]) := by
  induction gs with
  | nil => simp [addToGroups]
  | cons g rest ih =>
    obtain ⟨s, l⟩ := g
    by_cases h : s = ep.type
    · simp only [addToGroups, if_pos h, List.flatMap_cons, List.append_assoc]
      exact (@List.perm_append_comm RestEndpoint [ep] (rest.flatMap Prod.snd)).append_left l
    · simp only [addToGroups, if_neg h, List.flatMap_cons, List.append_assoc]
      exact ih.append_left l

theorem flatMap_foldl_addToGroups (eps : List RestEndpoint) :
    ∀ acc : List (String × List RestEndpoint),
      ((eps.foldl addToGroups acc).flatMap Prod.snd).Perm
        (acc.flatMap Prod.snd ++ eps) := by
  induction eps with
  | nil => simp
  | cons e rest ih =>
    intro acc
    rw [List.foldl_cons]
    refine (ih (addToGroups acc e)).trans ?_
    have := (flatMap_addToGroups acc e).append_right rest
    simpa using this

/-- The console enumeration is a permutation of the descriptor list. -/
theorem consoleOrder_perm (eps : List RestEndpoint) :
    (consoleOrder eps).Perm eps := by
  unfold consoleOrder
  have h1 : ((List.insertionSort groupKeyLe (endpointGroups eps)).flatMap
      (fun p => List.insertionSort objIdLe p.2)).Perm
      ((List.insertionSort groupKeyLe (endpointGroups eps)).flatMap Prod.snd) :=
    List.Perm.flatMap_left _ (fun p _ => List.perm_insertionSort objIdLe p.2)
  have h2 : ((List.insertionSort groupKeyLe (endpointGroups eps)).flatMap
      Prod.snd).Perm ((endpointGroups eps).flatMap Prod.snd) :=
    (List.perm_insertionSort groupKeyLe (endpointGroups eps)).flatMap_right Prod.snd
  refine (h1.trans h2).trans ?_
  simpa using flatMap_foldl_addToGroups eps []

/-- C4 amended: when the descriptors are displayed, the HTML dashboard
groups them by category in the fixed iteration order but sorts each group
by the entity display name (not by objectId), while the console listing
sorts the groups alphabetically by category name (not in the fixed order)
and sorts by objectId within each group; the console enumeration covers
every descriptor exactly once. -/
theorem display_order_characterization (eps : List RestEndpoint) :
    htmlCardOrder eps = type_order.flatMap (fun t =>
      List.insertionSort entityLe (eps.filter (fun e => e.type = t))) ∧
    List.Sorted groupKeyLe (List.insertionSort groupKeyLe (endpointGroups eps)) ∧
    consoleOrder eps = (List.insertionSort groupKeyLe (endpointGroups eps)).flatMap
      (fun p => List.insertionSort objIdLe (eps.filter (fun e => e.type = p.1))) ∧
    (consoleOrder eps).Perm eps :=
  ⟨htmlCardOrder_eq eps, List.sorted_insertionSort groupKeyLe _,
   consoleOrder_eq eps, consoleOrder_perm eps⟩

/-- A `Sensor` descriptor whose entity name sorts opposite to its objectId. -/
def exSensorA : RestEndpoint :=
  { type := "Sensor", entity := "zzz", object_id := "a",
    methods := ["GET"], endpoint := "/sensor/a" }

/-- A second `Sensor` descriptor. -/
def exSensorB : RestEndpoint :=
  { type := "Sensor", entity := "aaa", object_id := "b",
    methods := ["GET"], endpoint := "/sensor/b" }

/-- A `Button` descriptor. -/
def exButton : RestEndpoint :=
  { type := "Button", entity := "btn", object_id := "y",
    methods := ["GET", "POST"], endpoint := "/button/y",
    actions := some ["press"] }

/-- A third `Sensor` descriptor. -/
def exSensorX : RestEndpoint :=
  { type := "Sensor", entity := "x", object_id := "x",
    methods := ["GET"], endpoint := "/sensor/x" }

/-- C4 counterexample: neither display path realises the claimed order.
The HTML path emits the two Sensors sorted by entity name, objectIds
`[b, a]`, not objectId-sorted; the console path emits the Button group
before the Sensor group (alphabetical), though the fixed iteration order
puts Sensor before Button. -/
theorem display_order_cex :
    htmlCardOrder [exSensorA, exSensorB] = [exSensorB, exSensorA] ∧
    specMandatedOrder [exSensorA, exSensorB] = [exSensorA, exSensorB] ∧
    htmlCardOrder [exSensorA, exSensorB] ≠
      specMandatedOrder [exSensorA, exSensorB] ∧
    consoleOrder [exSensorX, exButton] = [exButton, exSensorX] ∧
    specMandatedOrder [exSensorX, exButton] = [exSensorX, exButton] ∧
    consoleOrder [exSensorX, exButton] ≠
      specMandatedOrder [exSensorX, exButton] := by decide

theorem descFor_object_id (e : Entity) (d : RestEndpoint)
    (hd : descFor e = some d) : d.object_id = e.object_id := by
  rw [descFor_eq] at hd
  by_cases hr : restBearing (classify (entityType e)) = true
  · rw [if_pos hr] at hd
    cases hd
    rfl
  · rw [if_neg hr] at hd
    cases hd

theorem synthesize_objectIds_sublist (es : List Entity) :
    List.Sublist ((synthesize es).1.map RestEndpoint.object_id)
      (es.map Entity.object_id) := by
  induction es with
  | nil => simp [synthesize]
  | cons e rest ih =>
    rcases hd : descFor e with _ | d
    · simp only [synthesize, hd, List.map_cons]
      exact ih.cons e.object_id
    · simp only [synthesize, hd, List.map_cons]
      rw [descFor_object_id e d hd]
      exact ih.cons₂ e.object_id

theorem sorted_strict_objId (l : List RestEndpoint)
    (hn : (l.map RestEndpoint.object_id).Nodup) :
    List.Sorted (fun a b : RestEndpoint => objIdLe a b ∧ a.object_id ≠ b.object_id)
      (List.insertionSort objIdLe l) := by
  have hs := List.sorted_insertionSort objIdLe l
  have hnd : ((List.insertionSort objIdLe l).map RestEndpoint.object_id).Nodup :=
    (((List.perm_insertionSort objIdLe l).map RestEndpoint.object_id).nodup_iff).mpr hn
  exact hs.and (List.pairwise_map.mp hnd)

/-- Two object-id-unique permutations sort to the same sequence. -/
theorem insertionSort_objId_eq_of_perm {l₁ l₂ : List RestEndpoint}
    (hp : l₁.Perm l₂) (hn : (l₁.map RestEndpoint.object_id).Nodup) :
    List.insertionSort objIdLe l₁ = List.insertionSort objIdLe l₂ := by
  have inst : IsAntisymm RestEndpoint
      (fun a b : RestEndpoint => objIdLe a b ∧ a.object_id ≠ b.object_id) :=
    ⟨fun _ _ h1 h2 => absurd (strLe_antisymm h1.1 h2.1) h1.2⟩
  have hn₂ : (l₂.map RestEndpoint.object_id).Nodup :=
    ((hp.map RestEndpoint.object_id).nodup_iff).mp hn
  refine @List.eq_of_perm_of_sorted RestEndpoint
    (fun a b : RestEndpoint => objIdLe a b ∧ a.object_id ≠ b.object_id) inst _ _
    ?_ (sorted_strict_objId l₁ hn) (sorted_strict_objId l₂ hn₂)
  exact (List.perm_insertionSort _ l₁).trans
    (hp.trans (List.perm_insertionSort _ l₂).symm)

/-- C5: synthesis is deterministic and input-order-insensitive: permuting
the entity list permutes the descriptor sequence (so the two runs are equal
as multisets, hence as sets), and if objectIds are unique per device - the
data-model invariant - the two runs are identical sequences after the
mandated group-by-category / sort-by-objectId ordering. -/
theorem synthesize_deterministic (es₁ es₂ : List Entity) (hp : es₁.Perm es₂) :
    (synthesize es₁).1.Perm (synthesize es₂).1 ∧
    ((es₁.map Entity.object_id).Nodup →
      specMandatedOrder (synthesize es₁).1 = specMandatedOrder (synthesize es₂).1) := by
  have hd : (synthesize es₁).1.Perm (synthesize es₂).1 := by
    rw [(synthesize_eq es₁).1, (synthesize_eq es₂).1]
    exact hp.filterMap descFor
  refine ⟨hd, fun hn => ?_⟩
  have hn₁ : ((synthesize es₁).1.map RestEndpoint.object_id).Nodup :=
    hn.sublist (synthesize_objectIds_sublist es₁)
  unfold specMandatedOrder
  refine bind_congr_mem _ _ _ (fun t _ => ?_)
  refine insertionSort_objId_eq_of_perm (hd.filter _) ?_
  exact hn₁.sublist ((List.filter_sublist _).map RestEndpoint.object_id)

/-- A second concrete entity for the determinism witness. -/
def exSensorEntity : Entity :=
  { key := 3, kind := "SensorInfo", name := "Water Temp", object_id := "water_temp" }

/-- C5 witness: the two orders of a concrete two-entity list give a
descriptor permutation and identical mandated orderings. -/
theorem synthesize_deterministic_witness :
    (synthesize [exSwitch, exSensorEntity]).1.Perm
      (synthesize [exSensorEntity, exSwitch]).1 ∧
    specMandatedOrder (synthesize [exSwitch, exSensorEntity]).1 =
      specMandatedOrder (synthesize [exSensorEntity, exSwitch]).1 :=
  ⟨(synthesize_deterministic [exSwitch, exSensorEntity]
      [exSensorEntity, exSwitch] (by decide)).1,
   (synthesize_deterministic [exSwitch, exSensorEntity]
      [exSensorEntity, exSwitch] (by decide)).2 (by decide)⟩

/-- The probe timeout passed to the HTTP client on line 858:
`aiohttp.ClientTimeout(total=5)`. -/
def PROBE_TIMEOUT_SECONDS : Nat := 5

/-- The network's behaviour for one GET request, as observed by
`test_rest_endpoints`: the request can time out, fail at transport level,
or return a response with a status code and a body that either parses as
JSON or does not. -/
inductive NetResult where
  | timeout
  | connectionError
  | reply (status : Nat) (jsonOk : Bool)
deriving DecidableEq

/-- The per-endpoint outcome classification of lines 858-905. -/
inductive ProbeOutcome where
  | success
  | httpError
  | timedOut
  | connError
deriving DecidableEq

/-- Outcome classification: HTTP 200 is a success whether or not the body
parses as JSON (lines 859-874); any other status is an HTTP error
(lines 875-882); a timeout or transport error is caught and counted
(lines 885-898). -/
def classifyResponse : NetResult → ProbeOutcome
  | .timeout => .timedOut
  | .connectionError => .connError
  | .reply s _ => if s = 200 then .success else .httpError

/-- The accumulated result of `test_rest_endpoints`: the two local
counters and the per-endpoint outcomes in probe order. -/
structure ProbeSummary where
  success_count : Nat
  fail_count : Nat
  results : List ProbeOutcome
deriving DecidableEq

/-- The probe loop of lines 854-905: classify each endpoint's response and
bump exactly one of the two counters; every exception is caught inside the
loop body, so one endpoint's failure never stops the loop. -/
def probeLoop (net : String → NetResult) : List RestEndpoint → ProbeSummary
  | [] => ⟨0, 0, []⟩
  | ep :: rest =>
    let o := classifyResponse (net ep.endpoint)
    let r := probeLoop net rest
    match o with
    | .success => ⟨r.success_count + 1, r.fail_count, o :: r.results⟩
    | _ => ⟨r.success_count, r.fail_count + 1, o :: r.results⟩

/-- `test_rest_endpoints` (lines 824-917): filter the GET-capable
endpoints (line 841) and probe each one in order. -/
def test_rest_endpoints (net : String → NetResult) (eps : List RestEndpoint) :
    ProbeSummary :=
  probeLoop net (eps.filter (fun ep => ep.methods.contains "GET"))

theorem probeLoop_spec (net : String → NetResult) (l : List RestEndpoint) :
    (probeLoop net l).results =
      l.map (fun ep => classifyResponse (net ep.endpoint)) ∧
    (probeLoop net l).success_count + (probeLoop net l).fail_count = l.length := by
  induction l with
  | nil => exact ⟨rfl, rfl⟩
  | cons ep rest ih =>
    rcases ho : classifyResponse (net ep.endpoint) with _ | _ | _ | _ <;>
      · simp only [probeLoop, ho]
        refine ⟨by simp [ih.1, ho], ?_⟩
        have := ih.2
        simp only [List.length_cons]
        omega

/-- C6: exactly the GET-capable descriptors are probed, in order; each
probed endpoint receives exactly one of the four outcomes (status 200 is a
Success whether or not the body parses as JSON, any other status an
HttpError, a timeout a Timeout, a transport failure a ConnectionError); a
timeout bumps the failed counter by exactly one and leaves the succeeded
counter unchanged; succeeded plus failed equals the number probed; the
outcome of each probed endpoint is a function of that endpoint's own
response only, so no per-endpoint failure aborts the rest; and the timeout
budget is the fixed 5 seconds. -/
theorem probe_contract (net : String → NetResult) (eps : List RestEndpoint) :
    (test_rest_endpoints net eps).results =
      (eps.filter (fun ep => ep.methods.contains "GET")).map
        (fun ep => classifyResponse (net ep.endpoint)) ∧
    (test_rest_endpoints net eps).success_count +
        (test_rest_endpoints net eps).fail_count =
      (eps.filter (fun ep => ep.methods.contains "GET")).length ∧
    (∀ b, classifyResponse (.reply 200 b) = .success) ∧
    (∀ s b, s ≠ 200 → classifyResponse (.reply s b) = .httpError) ∧
    classifyResponse .timeout = .timedOut ∧
    classifyResponse .connectionError = .connError ∧
    (∀ ep rest, net ep.endpoint = .timeout →
      (probeLoop net (ep :: rest)).fail_count =
        (probeLoop net rest).fail_count + 1 ∧
      (probeLoop net (ep :: rest)).success_count =
        (probeLoop net rest).success_count) ∧
    PROBE_TIMEOUT_SECONDS = 5 := by
  refine ⟨(probeLoop_spec net _).1, (probeLoop_spec net _).2,
    fun b => rfl, fun s b hs => ?_, rfl, rfl, fun ep rest ht => ?_, rfl⟩
  · simp [classifyResponse, hs]
  · constructor <;> simp [probeLoop, classifyResponse, ht]

/-- C6 witness: probing one endpoint against a network that never answers
within the window: the failed counter goes from 0 to 1, the succeeded
counter stays 0. -/
theorem probe_contract_witness :
    (probeLoop (fun _ => NetResult.timeout) [exSwitchDesc]).fail_count =
      (probeLoop (fun _ => NetResult.timeout) ([] : List RestEndpoint)).fail_count
        + 1 ∧
    (probeLoop (fun _ => NetResult.timeout) [exSwitchDesc]).success_count =
      (probeLoop (fun _ => NetResult.timeout)
        ([] : List RestEndpoint)).success_count :=
  (probe_contract (fun _ => NetResult.timeout) []).2.2.2.2.2.2.1
    exSwitchDesc [] rfl

/-- The outcome of one run as far as the exit status is concerned: the
connection/listing phase either raises (`APIConnectionError` or any
unexpected exception, lines 380-387) or delivers the entity list. -/
inductive DeviceRun where
  | connectError
  | unexpectedError
  | ok (entities : List Entity)

/-- The value `get_device_info` returns to `main`: the `rest_endpoints`
list on success (line 378), `False` on either exception (lines 382, 387);
the trailing `return True` on line 391 is unreachable.  `none` models
Python `False`. -/
def get_device_info_result : DeviceRun → Option (List RestEndpoint)
  | .connectError => none
  | .unexpectedError => none
  | .ok es => some (synthesize es).1

/-- Python truthiness of the returned value: `False` is falsy and so is an
empty list. -/
def pythonTruthy : Option (List RestEndpoint) → Bool
  | none => false
  | some l => !l.isEmpty

/-- `sys.exit(0 if success else 1)` (line 979). -/
def mainExitCode (r : DeviceRun) : Nat :=
  if pythonTruthy (get_device_info_result r) then 0 else 1

/-- An entity of an unsupported kind (Scenario D of the spec). -/
def exWeird : Entity :=
  { key := 4, kind := "WeirdThingInfo", name := "Weird", object_id := "x" }

/-- C8: the program exits 1 on connection and unexpected failures and 0 on
a successful run with at least one REST descriptor, but a successful run
whose entity list is empty - or contains only non-REST entities - returns
the empty (falsy) `rest_endpoints` list and exits 1, although connecting,
listing and synthesis all completed without raising. -/
theorem exit_code_empty_success :
    mainExitCode (.ok []) = 1 ∧
    mainExitCode (.ok [exWeird]) = 1 ∧
    mainExitCode .connectError = 1 ∧
    mainExitCode .unexpectedError = 1 ∧
    mainExitCode (.ok [exSwitch]) = 0 := by decide

def hexDigit (n : Nat) : Char :=
  if n < 10 then Char.ofNat (48 + n) else Char.ofNat (87 + n)

def hex4 (n : Nat) : String :=
  String.mk [hexDigit (n / 4096 % 16), hexDigit (n / 256 % 16),
    hexDigit (n / 16 % 16), hexDigit (n % 16)]

/-- `json.dumps` string escaping (default `ensure_ascii=True`): escape the
quote, the backslash, the control characters and everything outside
printable ASCII, the latter as `\uXXXX` (with surrogate pairs beyond the
basic plane). -/
def jsonEscapeChar (c : Char) : String :=
  if c.toNat = 34 then "\\\""
  else if c.toNat = 92 then "\\\\"
  else if c.toNat = 10 then "\\n"
  else if c.toNat = 13 then "\\r"
  else if c.toNat = 9 then "\\t"
  else if c.toNat = 8 then "\\b"
  else if c.toNat = 12 then "\\f"
  else if c.toNat < 32 ∨ c.toNat > 126 then
    if c.toNat ≥ 65536 then
      let v := c.toNat - 65536
      "\\u" ++ hex4 (55296 + v / 1024) ++ "\\u" ++ hex4 (56320 + v % 1024)
    else "\\u" ++ hex4 c.toNat
  else String.singleton c

def jsonEscape (s : String) : String :=
  String.join (s.toList.map jsonEscapeChar)

def jsonStr (s : String) : String := "\"" ++ jsonEscape s ++ "\""

def jsonStrList (l : List String) : String :=
  "[" ++ String.intercalate ", " (l.map jsonStr) ++ "]"

/-- Compact `json.dumps` of one endpoint dict (insertion key order:
type, entity, object_id, methods, endpoint, then actions and options when
present). -/
def epJson (ep : RestEndpoint) : String :=
  "\x7b\"type\": " ++ jsonStr ep.type ++
  ", \"entity\": " ++ jsonStr ep.entity ++
  ", \"object_id\": " ++ jsonStr ep.object_id ++
  ", \"methods\": " ++ jsonStrList ep.methods ++
  ", \"endpoint\": " ++ jsonStr ep.endpoint ++
  (match ep.actions with
   | none => ""
   | some a => ", \"actions\": " ++ jsonStrList a) ++
  (match ep.options with
   | none => ""
   | some o => ", \"options\": " ++ jsonStrList o) ++
  "\x7d"

/-- `json.dumps(rest_endpoints)` (line 573), embedded in the page. -/
def entitiesJson (eps : List RestEndpoint) : String :=
  "[" ++ String.intercalate ", " (eps.map epJson) ++ "]"

/-- `_entity_icon` (lines 736-754). -/
def _entity_icon (entity_type : String) : String :=
  if entity_type = "Binary Sensor" then "&#x1f534;"
  else if entity_type = "Sensor" then "&#x1f4ca;"
  else if entity_type = "Text Sensor" then "&#x1f4dd;"
  else if entity_type = "Switch" then "&#x1f50c;"
  else if entity_type = "Button" then "&#x1f518;"
  else if entity_type = "Light" then "&#x1f4a1;"
  else if entity_type = "Fan" then "&#x1f32c;"
  else if entity_type = "Cover" then "&#x1f3e0;"
  else if entity_type = "Climate" then "&#x1f321;"
  else if entity_type = "Number" then "&#x1f522;"
  else if entity_type = "Select" then "&#x1f4cb;"
  else if entity_type = "Lock" then "&#x1f512;"
  else if entity_type = "Time" then "&#x1f552;"
  else if entity_type = "Text" then "&#x1f4ac;"
  else "&#x2699;"

/-- `_entity_card_html` (lines 757-821). -/
def _entity_card_html (ep : RestEndpoint) (entity_type : String) : String :=
  let oid := ep.object_id
  let name := ep.entity
  let endpoint := ep.endpoint
  let head :=
    "        <div class=\"card\" id=\"card-" ++ oid ++ "\">\n" ++
    "          <h3><span class=\"status-dot\"></span>" ++ name ++ "</h3>\n" ++
    "          <div class=\"endpoint\">" ++ endpoint ++ "</div>\n" ++
    "          <div class=\"state\">--</div>\n"
  let controls :=
    if entity_type = "Switch" ∨ entity_type = "Light" ∨ entity_type = "Fan" then
      "          <div class=\"actions\">\n" ++
      "            <button class=\"on\" onclick=\"doAction(\x27" ++ endpoint ++
        "\x27,\x27turn_on\x27,\x27" ++ oid ++ "\x27)\">ON</button>\n" ++
      "            <button class=\"off\" onclick=\"doAction(\x27" ++ endpoint ++
        "\x27,\x27turn_off\x27,\x27" ++ oid ++ "\x27)\">OFF</button>\n" ++
      "            <button onclick=\"doAction(\x27" ++ endpoint ++
        "\x27,\x27toggle\x27,\x27" ++ oid ++ "\x27)\">Toggle</button>\n" ++
      "          </div>\n"
    else if entity_type = "Button" then
      "          <div class=\"actions\">\n" ++
      "            <button class=\"press\" onclick=\"doAction(\x27" ++ endpoint ++
        "\x27,\x27press\x27,\x27" ++ oid ++ "\x27)\">Press</button>\n" ++
      "          </div>\n"
    else if entity_type = "Cover" then
      "          <div class=\"actions\">\n" ++
      "            <button onclick=\"doAction(\x27" ++ endpoint ++
        "\x27,\x27open\x27,\x27" ++ oid ++ "\x27)\">Open</button>\n" ++
      "            <button onclick=\"doAction(\x27" ++ endpoint ++
        "\x27,\x27close\x27,\x27" ++ oid ++ "\x27)\">Close</button>\n" ++
      "            <button onclick=\"doAction(\x27" ++ endpoint ++
        "\x27,\x27stop\x27,\x27" ++ oid ++ "\x27)\">Stop</button>\n" ++
      "          </div>\n"
    else if entity_type = "Lock" then
      "          <div class=\"actions\">\n" ++
      "            <button class=\"on\" onclick=\"doAction(\x27" ++ endpoint ++
        "\x27,\x27lock\x27,\x27" ++ oid ++ "\x27)\">Lock</button>\n" ++
      "            <button class=\"off\" onclick=\"doAction(\x27" ++ endpoint ++
        "\x27,\x27unlock\x27,\x27" ++ oid ++ "\x27)\">Unlock</button>\n" ++
      "          </div>\n"
    else if entity_type = "Number" then
      "          <div class=\"input-row\">\n" ++
      "            <input type=\"number\" id=\"input-" ++ oid ++ "\" step=\"any\" />\n" ++
      "            <button onclick=\"doSetValue(\x27" ++ endpoint ++
        "\x27,\x27" ++ oid ++ "\x27)\">Set</button>\n" ++
      "          </div>\n"
    else if entity_type = "Select" then
      "          <div class=\"input-row\">\n" ++
      "            <select id=\"input-" ++ oid ++ "\" style=\"width:140px;\">\n" ++
      String.join ((ep.options.getD []).map (fun opt =>
        "              <option value=\"" ++ opt ++ "\">" ++ opt ++ "</option>\n")) ++
      "            </select>\n" ++
      "            <button onclick=\"doSetOption(\x27" ++ endpoint ++
        "\x27,\x27" ++ oid ++ "\x27)\">Set</button>\n" ++
      "          </div>\n"
    else if entity_type = "Time" then
      "          <div class=\"input-row\">\n" ++
      "            <input type=\"time\" id=\"input-" ++ oid ++ "\" step=\"1\" />\n" ++
      "            <button onclick=\"doSetTime(\x27" ++ endpoint ++
        "\x27,\x27" ++ oid ++ "\x27)\">Set</button>\n" ++
      "          </div>\n"
    else if entity_type = "Text" then
      "          <div class=\"input-row\">\n" ++
      "            <input type=\"text\" id=\"input-" ++ oid ++
        "\" placeholder=\"text\" style=\"width:160px;\" />\n" ++
      "            <button onclick=\"doSetValue(\x27" ++ endpoint ++
        "\x27,\x27" ++ oid ++ "\x27)\">Set</button>\n" ++
      "          </div>\n"
    else if entity_type = "Climate" then
      "          <div class=\"input-row\">\n" ++
      "            <input type=\"number\" id=\"input-" ++ oid ++
        "\" step=\"0.5\" placeholder=\"temp\" />\n" ++
      "            <button onclick=\"doSetValue(\x27" ++ endpoint ++
        "\x27,\x27" ++ oid ++ "\x27)\">Set</button>\n" ++
      "          </div>\n"
    else ""
  head ++ controls ++ "        </div>\n"

/-- The `sections_html` accumulation of lines 558-570: iterate the fixed
type order, skip absent groups, emit a section header and the entity cards
sorted by entity name. -/
def sectionsHtml (eps : List RestEndpoint) : String :=
  String.join (type_order.map (fun t =>
    match getGroup (endpointGroups eps) t with
    | none => ""
    | some g =>
      let sorted_eps := List.insertionSort entityLe g
      "    <div class=\"section\">\n" ++
      "      <h2>" ++ _entity_icon t ++ " " ++ t ++ " (" ++
        toString sorted_eps.length ++ ")</h2>\n" ++
      "      <div class=\"cards\">\n" ++
      String.join (sorted_eps.map (fun ep => _entity_card_html ep t)) ++
      "      </div>\n" ++
      "    </div>\n"))

/-- The TypeScript API client template of `_generate_api_code`
(lines 470-507), with `host` interpolated. -/
def tsApiCode (host : String) : String :=
    "// ESPHome REST API Client - TypeScript\n// Auto-generated by get_ids\n\nconst BASE_URL = \x27http://" ++
    host ++
    "\x27;\n\ninterface EntityState \x7b\n  id: string;\n  state: string;\n  value: string | number | boolean;\n  [key: string]: unknown;\n\x7d\n\nasync function getEntity(endpoint: string): Promise<EntityState> \x7b\n  const resp = await fetch(\x60$\x7bBASE_URL\x7d$\x7bendpoint\x7d\x60);\n  if (!resp.ok) throw new Error(\x60GET $\x7bendpoint\x7d failed: $\x7bresp.status\x7d\x60);\n  return resp.json();\n\x7d\n\nasync function postAction(endpoint: string, action: string): Promise<Response> \x7b\n  const resp = await fetch(\x60$\x7bBASE_URL\x7d$\x7bendpoint\x7d/$\x7baction\x7d\x60, \x7b method: \x27POST\x27 \x7d);\n  if (!resp.ok) throw new Error(\x60POST $\x7bendpoint\x7d/$\x7baction\x7d failed: $\x7bresp.status\x7d\x60);\n  return resp;\n\x7d\n\nasync function postValue(endpoint: string, value: string | number): Promise<Response> \x7b\n  const url = \x60$\x7bBASE_URL\x7d$\x7bendpoint\x7d/set?value=$\x7bencodeURIComponent(String(value))\x7d\x60;\n  const resp = await fetch(url, \x7b method: \x27POST\x27 \x7d);\n  if (!resp.ok) throw new Error(\x60POST set value failed: $\x7bresp.status\x7d\x60);\n  return resp;\n\x7d\n\nasync function postTime(endpoint: string, hour: number, minute: number, second: number): Promise<Response> \x7b\n  const url = \x60$\x7bBASE_URL\x7d$\x7bendpoint\x7d/set?hour=$\x7bhour\x7d&minute=$\x7bminute\x7d&second=$\x7bsecond\x7d\x60;\n  const resp = await fetch(url, \x7b method: \x27POST\x27 \x7d);\n  if (!resp.ok) throw new Error(\x60POST set time failed: $\x7bresp.status\x7d\x60);\n  return resp;\n\x7d\n"

/-- The JavaScript API client template of `_generate_api_code`
(lines 509-539), with `host` interpolated. -/
def jsApiCode (host : String) : String :=
    "// ESPHome REST API Client - JavaScript\n// Auto-generated by get_ids\n\nconst BASE_URL = \x27http://" ++
    host ++
    "\x27;\n\nasync function getEntity(endpoint) \x7b\n  const resp = await fetch(\x60$\x7bBASE_URL\x7d$\x7bendpoint\x7d\x60);\n  if (!resp.ok) throw new Error(\x60GET $\x7bendpoint\x7d failed: $\x7bresp.status\x7d\x60);\n  return resp.json();\n\x7d\n\nasync function postAction(endpoint, action) \x7b\n  const resp = await fetch(\x60$\x7bBASE_URL\x7d$\x7bendpoint\x7d/$\x7baction\x7d\x60, \x7b method: \x27POST\x27 \x7d);\n  if (!resp.ok) throw new Error(\x60POST $\x7bendpoint\x7d/$\x7baction\x7d failed: $\x7bresp.status\x7d\x60);\n  return resp;\n\x7d\n\nasync function postValue(endpoint, value) \x7b\n  const url = \x60$\x7bBASE_URL\x7d$\x7bendpoint\x7d/set?value=$\x7bencodeURIComponent(String(value))\x7d\x60;\n  const resp = await fetch(url, \x7b method: \x27POST\x27 \x7d);\n  if (!resp.ok) throw new Error(\x60POST set value failed: $\x7bresp.status\x7d\x60);\n  return resp;\n\x7d\n\nasync function postTime(endpoint, hour, minute, second) \x7b\n  const url = \x60$\x7bBASE_URL\x7d$\x7bendpoint\x7d/set?hour=$\x7bhour\x7d&minute=$\x7bminute\x7d&second=$\x7bsecond\x7d\x60;\n  const resp = await fetch(url, \x7b method: \x27POST\x27 \x7d);\n  if (!resp.ok) throw new Error(\x60POST set time failed: $\x7bresp.status\x7d\x60);\n  return resp;\n\x7d\n"

/-- `_generate_html` (lines 542-733): the dashboard document with the
entity cards and the embedded descriptor JSON (the `ext` argument is
accepted but unused, as in the source). -/
def _generate_html (host device_name : String) (eps : List RestEndpoint)
    (ext : String) : String :=
  let _ := ext
  "<!DOCTYPE html>\n<html lang=\"en\">\n<head>\n  <meta charset=\"UTF-8\">\n  <meta name=\"viewport\" content=\"width=device-width, initial-scale=1.0\">\n  <title>" ++
    device_name ++
    " - ESPHome Dashboard</title>\n  <style>\n    * \x7b margin: 0; padding: 0; box-sizing: border-box; \x7d\n    body \x7b font-family: -apple-system, BlinkMacSystemFont, \x27Segoe UI\x27, Roboto, sans-serif;\n           background: #0d1117; color: #c9d1d9; padding: 20px; \x7d\n    h1 \x7b text-align: center; color: #58a6ff; margin-bottom: 8px; font-size: 1.8em; \x7d\n    .subtitle \x7b text-align: center; color: #8b949e; margin-bottom: 24px; font-size: 0.9em; \x7d\n    .section \x7b margin-bottom: 24px; \x7d\n    .section h2 \x7b color: #58a6ff; border-bottom: 1px solid #21262d; padding-bottom: 8px;\n                   margin-bottom: 12px; font-size: 1.2em; \x7d\n    .cards \x7b display: grid; grid-template-columns: repeat(auto-fill, minmax(300px, 1fr)); gap: 12px; \x7d\n    .card \x7b background: #161b22; border: 1px solid #30363d; border-radius: 8px; padding: 16px; \x7d\n    .card h3 \x7b font-size: 0.95em; color: #e6edf3; margin-bottom: 8px; \x7d\n    .card .endpoint \x7b font-size: 0.75em; color: #8b949e; margin-bottom: 8px; font-family: monospace; \x7d\n    .card .state \x7b font-size: 1.3em; font-weight: 600; color: #58a6ff; margin-bottom: 8px;\n                    min-height: 1.5em; \x7d\n    .card .state.on \x7b color: #3fb950; \x7d\n    .card .state.off \x7b color: #f85149; \x7d\n    .card .actions \x7b display: flex; gap: 6px; flex-wrap: wrap; \x7d\n    .card .actions button \x7b background: #21262d; color: #c9d1d9; border: 1px solid #30363d;\n                             border-radius: 4px; padding: 4px 12px; cursor: pointer; font-size: 0.8em; \x7d\n    .card .actions button:hover \x7b background: #30363d; border-color: #58a6ff; \x7d\n    .card .actions button.on \x7b background: #238636; border-color: #2ea043; \x7d\n    .card .actions button.off \x7b background: #da3633; border-color: #f85149; \x7d\n    .card .actions button.press \x7b background: #1f6feb; border-color: #388bfd; \x7d\n    .card input[type=number], .card input[type=time], .card select \x7b\n      background: #0d1117; color: #c9d1d9; border: 1px solid #30363d; border-radius: 4px;\n      padding: 4px 8px; font-size: 0.85em; width: 120px; \x7d\n    .card .input-row \x7b display: flex; gap: 6px; align-items: center; flex-wrap: wrap; \x7d\n    .refresh-bar \x7b text-align: center; margin-bottom: 16px; \x7d\n    .refresh-bar button \x7b background: #21262d; color: #c9d1d9; border: 1px solid #30363d;\n                           border-radius: 4px; padding: 6px 16px; cursor: pointer; margin: 0 4px; \x7d\n    .refresh-bar button:hover \x7b background: #30363d; border-color: #58a6ff; \x7d\n    .refresh-bar button.active \x7b background: #1f6feb; border-color: #388bfd; \x7d\n    .status-dot \x7b display: inline-block; width: 8px; height: 8px; border-radius: 50%;\n                   margin-right: 6px; background: #484f58; \x7d\n    .status-dot.on \x7b background: #3fb950; \x7d\n    .status-dot.off \x7b background: #f85149; \x7d\n    .error \x7b color: #f85149; font-size: 0.8em; \x7d\n  </style>\n</head>\n<body>\n  <h1>" ++
    device_name ++
    "</h1>\n  <div class=\"subtitle\">ESPHome REST Dashboard &middot; " ++
    host ++
    "</div>\n  <div class=\"refresh-bar\">\n    <button onclick=\"refreshAll()\">&#x21bb; Refresh All</button>\n    <button id=\"autoBtn\" onclick=\"toggleAuto()\">Auto: OFF</button>\n  </div>\n" ++
    sectionsHtml eps ++
    "\n  <script src=\"api.js\"></script>\n  <script>\n    const ENTITIES = " ++
    entitiesJson eps ++
    ";\n    let autoInterval = null;\n\n    function refreshAll() \x7b\n      ENTITIES.forEach(ep => \x7b\n        if (ep.methods.includes(\x27GET\x27)) fetchState(ep);\n      \x7d);\n    \x7d\n\n    function toggleAuto() \x7b\n      const btn = document.getElementById(\x27autoBtn\x27);\n      if (autoInterval) \x7b\n        clearInterval(autoInterval);\n        autoInterval = null;\n        btn.textContent = \x27Auto: OFF\x27;\n        btn.classList.remove(\x27active\x27);\n      \x7d else \x7b\n        autoInterval = setInterval(refreshAll, 5000);\n        btn.textContent = \x27Auto: ON (5s)\x27;\n        btn.classList.add(\x27active\x27);\n        refreshAll();\n      \x7d\n    \x7d\n\n    async function fetchState(ep) \x7b\n      const card = document.getElementById(\x27card-\x27 + ep.object_id);\n      if (!card) return;\n      const stateEl = card.querySelector(\x27.state\x27);\n      try \x7b\n        const data = await getEntity(ep.endpoint);\n        const val = data.state !== undefined ? data.state : data.value;\n        stateEl.textContent = val;\n        stateEl.className = \x27state\x27;\n        if (ep.type === \x27Select\x27) \x7b\n          const sel = document.getElementById(\x27input-\x27 + ep.object_id);\n          if (sel) sel.value = val;\n        \x7d\n        if (typeof val === \x27boolean\x27 || val === \x27ON\x27 || val === \x27OFF\x27) \x7b\n          stateEl.classList.add(val === true || val === \x27ON\x27 ? \x27on\x27 : \x27off\x27);\n          const dot = card.querySelector(\x27.status-dot\x27);\n          if (dot) \x7b\n            dot.className = \x27status-dot \x27 + (val === true || val === \x27ON\x27 ? \x27on\x27 : \x27off\x27);\n          \x7d\n        \x7d\n      \x7d catch(e) \x7b\n        stateEl.textContent = \x27Error\x27;\n        stateEl.className = \x27state error\x27;\n      \x7d\n    \x7d\n\n    async function doAction(endpoint, action, oid) \x7b\n      try \x7b\n        await postAction(endpoint, action);\n        setTimeout(() => \x7b\n          const ep = ENTITIES.find(e => e.object_id === oid);\n          if (ep) fetchState(ep);\n        \x7d, 300);\n      \x7d catch(e) \x7b console.error(e); \x7d\n    \x7d\n\n    async function doSetValue(endpoint, oid) \x7b\n      const input = document.getElementById(\x27input-\x27 + oid);\n      if (!input) return;\n      try \x7b\n        await postValue(endpoint, input.value);\n        setTimeout(() => \x7b\n          const ep = ENTITIES.find(e => e.object_id === oid);\n          if (ep) fetchState(ep);\n        \x7d, 300);\n      \x7d catch(e) \x7b console.error(e); \x7d\n    \x7d\n\n    async function doSetTime(endpoint, oid) \x7b\n      const input = document.getElementById(\x27input-\x27 + oid);\n      if (!input || !input.value) return;\n      const parts = input.value.split(\x27:\x27);\n      const h = parseInt(parts[0]), m = parseInt(parts[1]), s = parts[2] ? parseInt(parts[2]) : 0;\n      try \x7b\n        await postTime(endpoint, h, m, s);\n        setTimeout(() => \x7b\n          const ep = ENTITIES.find(e => e.object_id === oid);\n          if (ep) fetchState(ep);\n        \x7d, 300);\n      \x7d catch(e) \x7b console.error(e); \x7d\n    \x7d\n\n    async function doSetOption(endpoint, oid) \x7b\n      const sel = document.getElementById(\x27input-\x27 + oid);\n      if (!sel) return;\n      try \x7b\n        await postValue(endpoint, sel.value);\n        setTimeout(() => \x7b\n          const ep = ENTITIES.find(e => e.object_id === oid);\n          if (ep) fetchState(ep);\n        \x7d, 300);\n      \x7d catch(e) \x7b console.error(e); \x7d\n    \x7d\n\n    // Initial load\n    refreshAll();\n  </script>\n</body>\n</html>"

/-- `_generate_api_code` (lines 467-539). -/
def _generate_api_code (host lang : String) : String :=
  if lang = "ts" then tsApiCode host else jsApiCode host

/-- The `tsconfig.json` content (`json.dumps(..., indent=2)`,
lines 427-440). -/
def tsconfigText : String :=
  "\x7b\n  \"compilerOptions\": \x7b\n    \"target\": \"ES2020\",\n    \"module\": \"ES2020\",\n    \"strict\": true,\n    \"esModuleInterop\": true,\n    \"outDir\": \"./dist\",\n    \"rootDir\": \".\",\n    \"declaration\": true,\n    \"sourceMap\": true\n  \x7d,\n  \"include\": [\n    \"*.ts\"\n  ],\n  \"exclude\": [\n    \"node_modules\"\n  ]\n\x7d"

/-- The `package.json` content (`json.dumps(..., indent=2)`,
lines 445-454). -/
def packageJson (device_name lang : String) : String :=
  "\x7b\n  \"name\": \"esphome-dashboard\",\n  \"version\": \"1.0.0\",\n  \"description\": \"ESPHome REST Dashboard for " ++
  jsonEscape device_name ++
  "\",\n  \"scripts\": \x7b\n    \"build\": " ++
  (if lang = "ts" then
    "\"tsc && node -e \\\"require(\x27fs\x27).cpSync(\x27index.html\x27,\x27dist/index.html\x27)\\\"\""
   else "\"echo No build needed\"") ++
  ",\n    \"serve\": " ++
  (if lang = "js" then "\"python -m http.server 8080\""
   else "\"npm run build && python -m http.server 8080 --directory dist\"") ++
  "\n  \x7d,\n  \"devDependencies\": " ++
  (if lang = "ts" then "\x7b\n    \"typescript\": \"^5.0.0\"\n  \x7d"
   else "\x7b\x7d") ++
  "\n\x7d"

/-- The in-memory asset bundle written by `generate_web_interface`
(lines 394-464): the API client file (`api.js` / `api.ts`), `index.html`,
`package.json` (with a trailing newline, line 456), and `tsconfig.json`
(with a trailing newline, line 442) for the ts flavor only. -/
structure WebBundle where
  api_filename : String
  api : String
  index_html : String
  package_json : String
  tsconfig_json : Option String
deriving DecidableEq

/-- `generate_web_interface` (lines 394-464) as a pure function from its
inputs to the generated bundle (the file writes go to the caller-specified
output directory and are delegated to the runtime). -/
def generate_web_interface (host device_name : String)
    (rest_endpoints : List RestEndpoint) (lang : String) : WebBundle :=
  { api_filename := "api." ++ lang,
    api := _generate_api_code host lang,
    index_html := _generate_html host device_name rest_endpoints lang,
    package_json := packageJson device_name lang ++ "\n",
    tsconfig_json := if lang = "ts" then some (tsconfigText ++ "\n") else none }

/-- C7: dashboard generation is deterministic: every generated asset (API
client module, HTML document, package manifest and, for the statically
typed flavor, the type-checker configuration) is a pure function of
(host, device name, descriptor list, flavor), so two calls with identical
inputs produce byte-identical bundles. -/
theorem generate_deterministic (h₁ h₂ d₁ d₂ : String)
    (e₁ e₂ : List RestEndpoint) (l₁ l₂ : String)
    (hh : h₁ = h₂) (hd : d₁ = d₂) (he : e₁ = e₂) (hl : l₁ = l₂) :
    generate_web_interface h₁ d₁ e₁ l₁ = generate_web_interface h₂ d₂ e₂ l₂ := by
  subst hh
  subst hd
  subst he
  subst hl
  rfl

/-- C7 witness: two generations from the same concrete inputs coincide. -/
theorem generate_deterministic_witness :
    generate_web_interface "192.168.1.50" "Pool" [exSwitchDesc] "js" =
      generate_web_interface "192.168.1.50" "Pool" [exSwitchDesc] "js" :=
  generate_deterministic _ _ _ _ _ _ _ _ rfl rfl rfl rfl

end GetIds
